import Mathlib

/-!
Verification of the personal-knowledge-vault retrieval and evaluation core.

The development shallowly embeds the retrieval pipeline of
`app/services/rag_service.py` (vector search over a user's notes, context
and citation assembly, answer synthesis) and the offline evaluation
metrics of `app/evaluation/metrics.py` (Precision@K, Recall@K, MRR and
the aggregate `evaluate_retrieval`).

Modelling conventions:
- Python floats are modelled as rationals (`ℚ`); all arithmetic the code
  performs on scores is exact in this range.
- The database table of notes is a list of `Note` records; the pgvector
  distance operator `<=>` is an external parameter
  `dist : List ℚ → List ℚ → ℚ` (it lives in the database extension, not
  in this repository), and the SQL query of `semantic_search` is embedded
  as filter / stable sort by ascending distance / limit.
- The embedding provider returned by `get_embedding_service` implements
  the `EmbeddingProvider` interface; it is a parameter
  `p : String → Except String (List ℚ)` where `.error` models a raised
  `AIServiceError`.  The concrete `OpenAIEmbeddingProvider.embed_text`
  is embedded as `openAIEmbedText`.
- Raised exceptions are modelled with `Except String`; the payload is the
  exception message.
- The chat-completion backend of `ask_vault` is a parameter
  `gen : String → Except String String` from the prompt to the generated
  answer; `ask_vault` additionally returns the number of generation calls
  made, so that "no outbound generation call" is expressible.
- Wall-clock values (`EvaluationResult.timestamp`, `measure_latency`) are
  not modelled; no claim depends on them.
- Python sets of note ids (`relevant: Set[int]`) are modelled as
  duplicate-free lists of `Int`; `x in relevant` is `List.elem` and
  `len(relevant)` is the list length.
- Python string operations are modelled at the character-list level
  (Python strings are sequences of characters, and slicing, lower-casing
  and membership are character-wise).
-/

namespace Vault

/-- A row of the `notes` table (`app/models/note.py`).  `embedding` is
nullable; timestamps are abstract ticks. -/
structure Note where
  id : Nat
  title : String
  content : String
  tags : List String
  embedding : Option (List ℚ)
  user_id : Nat
  created_at : Nat
  updated_at : Nat
deriving Repr, DecidableEq

/-- One element of the list returned by `semantic_search`
(the result dict built at `rag_service.py` lines 77-84). -/
structure SearchRow where
  note_id : Nat
  title : String
  content : String
  tags : List String
  similarity : ℚ
  excerpt : String
deriving Repr, DecidableEq

/-- Excerpt construction (`rag_service.py` line 75): first 200 characters
of the content, with an ellipsis appended when the content is longer. -/
def mkExcerpt (content : String) : String :=
  if 200 < content.length then String.mk (content.data.take 200) ++ "..." else content

/-- `OpenAIEmbeddingProvider.embed_text` (`embedding_service.py` lines
27-40): raises when the API key is not configured, wraps API failures
into `AIServiceError`, otherwise returns the API's embedding.  The
network call is the parameter `api`. -/
def openAIEmbedText (is_openai_configured : Bool)
    (api : String → Except String (List ℚ)) (text : String) :
    Except String (List ℚ) :=
  if ¬ is_openai_configured then Except.error "OpenAI API key not configured"
  else
    match api text with
    | Except.ok v => Except.ok v
    | Except.error e => Except.error ("Failed to generate embedding: " ++ e)

/-- Comparison used by the SQL `ORDER BY embedding <=> :query_embedding`:
ascending raw distance of the stored embedding to the query embedding. -/
def vectorDistLe (dist : List ℚ → List ℚ → ℚ) (q : List ℚ) (a b : Note) : Bool :=
  decide (dist (a.embedding.getD []) q ≤ dist (b.embedding.getD []) q)

/-- The SQL query of `semantic_search` (`rag_service.py` lines 46-61):
keep the rows with `user_id = :user_id AND embedding IS NOT NULL`, order
by ascending distance to the query embedding, limit to `top_k`. -/
def sqlSearchNotes (dist : List ℚ → List ℚ → ℚ) (db : List Note)
    (query_embedding : List ℚ) (user_id : Nat) (top_k : Nat) : List Note :=
  (((db.filter (fun n => n.user_id == user_id && n.embedding.isSome)).mergeSort
      (vectorDistLe dist query_embedding)).take top_k)

/-- The result dict built for one SQL row (`rag_service.py` lines 74-84):
`similarity` is the selected column `1 - (embedding <=> :query_embedding)`,
unmodified. -/
def searchRow (dist : List ℚ → List ℚ → ℚ) (query_embedding : List ℚ)
    (n : Note) : SearchRow :=
  ⟨n.id, n.title, n.content, n.tags,
   1 - dist (n.embedding.getD []) query_embedding, mkExcerpt n.content⟩

/-- `semantic_search` (`rag_service.py` lines 15-87): embed the query via
the provider (re-raising any `AIServiceError` as
"Failed to process search query"), then run the vector query and build
the result dicts. -/
def semantic_search (p : String → Except String (List ℚ))
    (dist : List ℚ → List ℚ → ℚ) (db : List Note) (query : String)
    (user_id : Nat) (top_k : Nat) : Except String (List SearchRow) :=
  match p query with
  | Except.error _ => Except.error "Failed to process search query"
  | Except.ok query_embedding =>
      Except.ok ((sqlSearchNotes dist db query_embedding user_id top_k).map
        (searchRow dist query_embedding))

/-- One citation entry built by `ask_vault` (`rag_service.py` lines
117-122). -/
structure Citation where
  note_id : Nat
  title : String
  excerpt : String
  similarity : ℚ
deriving Repr, DecidableEq

/-- The value returned by `ask_vault`. -/
structure RagAnswer where
  answer : String
  citations : List Citation
deriving Repr, DecidableEq

/-- The `context_parts` list of `ask_vault` (`rag_service.py` lines
112-116): for the result of 1-based rank `idx`, the block
`"[idx] {title}\n{content}\n"`. -/
def contextBlocks : Nat → List SearchRow → List String
  | _, [] => []
  | idx, r :: rest =>
      ("[" ++ toString idx ++ "] " ++ r.title ++ "\n" ++ r.content ++ "\n") ::
        contextBlocks (idx + 1) rest

/-- The context string of `ask_vault` (`rag_service.py` line 124):
`"\n".join(context_parts)`. -/
def assembleContext (search_results : List SearchRow) : String :=
  String.intercalate "\n" (contextBlocks 1 search_results)

/-- The citation list of `ask_vault` (`rag_service.py` lines 117-122):
a projection of each result, in result order. -/
def buildCitations (search_results : List SearchRow) : List Citation :=
  search_results.map (fun r => ⟨r.note_id, r.title, r.excerpt, r.similarity⟩)

/-- The chat prompt of `ask_vault` (`rag_service.py` lines 136-149). -/
def ragPrompt (context query : String) : String :=
  "You are a helpful assistant that answers questions based on the user\x27s personal notes.\n\nContext from notes:\n"
    ++ context
    ++ "\n\nUser question: " ++ query
    ++ "\n\nInstructions:\n- Answer the question using ONLY information from the provided notes\n- Reference notes using [1], [2], etc. when citing information\n- If the notes don\x27t contain enough information, say so\n- Be concise and accurate\n\nAnswer:"

/-- `ask_vault` (`rag_service.py` lines 90-172).  The second component of
the result counts the chat-completion calls made (0 or 1 on the
non-raising paths).  `gen` is the chat backend applied to the prompt. -/
def ask_vault (p : String → Except String (List ℚ))
    (dist : List ℚ → List ℚ → ℚ) (db : List Note)
    (is_openai_configured : Bool) (gen : String → Except String String)
    (query : String) (user_id : Nat) (top_k : Nat) :
    Except String (RagAnswer × Nat) :=
  match semantic_search p dist db query user_id top_k with
  | Except.error e => Except.error e
  | Except.ok search_results =>
      if search_results = [] then
        Except.ok
          (⟨"I couldn\x27t find any relevant notes to answer your question.", []⟩, 0)
      else
        let context := assembleContext search_results
        let citations := buildCitations search_results
        if ¬ is_openai_configured then
          Except.ok
            (⟨"AI service is not configured. Please set OPENAI_API_KEY.", citations⟩, 0)
        else
          match gen (ragPrompt context query) with
          | Except.ok answer => Except.ok (⟨answer, citations⟩, 1)
          | Except.error e => Except.error ("Failed to generate answer: " ++ e)

/-- Splitting a character list into maximal runs of non-space characters,
with `acc` the (reversed) token being accumulated. -/
def splitTokens (acc : List Char) : List Char → List (List Char)
  | [] => if acc = [] then [] else [acc.reverse]
  | c :: cs =>
      if c = ' ' then
        if acc = [] then splitTokens [] cs else acc.reverse :: splitTokens [] cs
      else splitTokens (c :: acc) cs

/-- Modelled from the spec: no keyword-fallback retrieval mode exists
under `src/` (the only retrieval path is `semantic_search`), so the
fallback's tokenisation is taken from the spec's words: lower-case the
query, split on whitespace, discard tokens of length at most 2, keep
distinct tokens. -/
def keywordTokens (query : String) : List String :=
  (((splitTokens [] (query.data.map Char.toLower)).map String.mk).filter
    (fun t => 2 < t.length)).dedup

/-- Modelled from the spec: the number of distinct keyword tokens that
occur (as substrings) in the lower-cased title+content of the note. -/
def keywordMatches (keywords : List String) (n : Note) : Nat :=
  (keywords.filter
    (fun kw => decide (kw.data <:+: (n.title ++ " " ++ n.content).data.map Char.toLower))).length

/-- Modelled from the spec: the keyword-fallback score of a candidate,
`(# distinct keyword tokens present) / max(#keywords, 1)`, clamped with
`min(score, 1.0)`; the score path requires `matches > 0 or not keywords`,
otherwise the candidate does not match (score 0). -/
def keywordScore (query : String) (n : Note) : ℚ :=
  let keywords := keywordTokens query
  let matched := keywordMatches keywords n
  if 0 < matched ∨ keywords = [] then
    min ((matched : ℚ) / (max keywords.length 1 : ℚ)) 1
  else 0

/-- `EvaluationResult` (`metrics.py` lines 17-41) without the wall-clock
`timestamp` field. -/
structure EvaluationResult where
  precision_at_k : ℚ
  recall_at_k : ℚ
  mrr : ℚ
  latency_ms : ℚ
  k : Int
  total_queries : Nat
deriving Repr, DecidableEq

/-- `calculate_precision_at_k` (`metrics.py` lines 44-68). -/
def calculate_precision_at_k (retrieved : List Int) (relevant : List Int)
    (k : Int) : ℚ :=
  if k ≤ 0 ∨ retrieved = [] then 0
  else
    let top_k := retrieved.take k.toNat
    let relevant_in_top_k : Nat := top_k.countP (fun note_id => relevant.elem note_id)
    (relevant_in_top_k : ℚ) / (k : ℚ)

/-- `calculate_recall_at_k` (`metrics.py` lines 71-95). -/
def calculate_recall_at_k (retrieved : List Int) (relevant : List Int)
    (k : Int) : ℚ :=
  if relevant = [] ∨ k ≤ 0 then 0
  else
    let top_k := retrieved.take k.toNat
    let relevant_in_top_k : Nat := top_k.countP (fun note_id => relevant.elem note_id)
    (relevant_in_top_k : ℚ) / (relevant.length : ℚ)

/-- The inner loop of `calculate_mrr` (`metrics.py` lines 120-124): the
0-based index of the first retrieved id lying in the relevant set. -/
def firstRelevantIdx (retrieved : List Int) (relevant : List Int) : Option Nat :=
  retrieved.findIdx? (fun note_id => relevant.elem note_id)

/-- The reciprocal-rank contribution of one query
(`metrics.py` lines 126-129). -/
def reciprocalRank (retrieved : List Int) (relevant : List Int) : ℚ :=
  match firstRelevantIdx retrieved relevant with
  | some i => 1 / ((i : ℚ) + 1)
  | none => 0

/-- `calculate_mrr` (`metrics.py` lines 98-131): returns 0 outright when
the input lists are empty or of different lengths, otherwise the mean of
the reciprocal ranks over the zipped queries. -/
def calculate_mrr (retrieved_lists : List (List Int))
    (relevant_sets : List (List Int)) : ℚ :=
  if retrieved_lists = [] ∨ retrieved_lists.length ≠ relevant_sets.length then 0
  else
    let reciprocal_ranks :=
      (retrieved_lists.zip relevant_sets).map (fun p => reciprocalRank p.1 p.2)
    if reciprocal_ranks = [] then 0
    else reciprocal_ranks.sum / (reciprocal_ranks.length : ℚ)

/-- `evaluate_retrieval` (`metrics.py` lines 156-206).  `.error` models a
raised exception.  The guard is the literal Python condition
`not queries or len(queries) != len(retrieved_results) != len(ground_truth)`,
whose chained comparison means
`len(queries) != len(retrieved_results) and len(retrieved_results) != len(ground_truth)`.
When the guard passes but the zipped metric lists are empty, the Python
code divides by zero; that path is `.error "ZeroDivisionError"`.
`latencies = None` is modelled as the empty list. -/
def evaluate_retrieval (queries : List String)
    (retrieved_results : List (List Int)) (ground_truth : List (List Int))
    (k : Int) (latencies : List ℚ) : Except String EvaluationResult :=
  if queries = [] ∨ (queries.length ≠ retrieved_results.length ∧
      retrieved_results.length ≠ ground_truth.length) then
    Except.error "Queries, results, and ground truth must have same length"
  else
    let pairs := retrieved_results.zip ground_truth
    let precisions := pairs.map (fun pr => calculate_precision_at_k pr.1 pr.2 k)
    if precisions = [] then Except.error "ZeroDivisionError"
    else
      let avg_precision := precisions.sum / (precisions.length : ℚ)
      let recalls := pairs.map (fun pr => calculate_recall_at_k pr.1 pr.2 k)
      let avg_recall := recalls.sum / (recalls.length : ℚ)
      let mrr := calculate_mrr retrieved_results ground_truth
      let avg_latency := if latencies = [] then 0 else latencies.sum / (latencies.length : ℚ)
      Except.ok ⟨avg_precision, avg_recall, mrr, avg_latency, k, queries.length⟩

/-- The tail of a separator-joined list: each element preceded by the
separator.  `String.intercalate sep (b :: bs) = b ++ sepTail sep bs`. -/
def sepTail (sep : String) : List String → String
  | [] => ""
  | b :: bs => sep ++ b ++ sepTail sep bs

/-- The string `s` contains the given markers, in order: the first marker
occurs in `s`, and the remaining markers occur, in order, after it. -/
def ContainsInOrder : String → List String → Prop
  | _, [] => True
  | s, m :: ms => ∃ pre post : String, s = pre ++ m ++ post ∧ ContainsInOrder post ms

/-! Helper lemmas shared by several claims. -/

theorem mergeSort_nil_eq {α : Type} (le : α → α → Bool) :
    ([] : List α).mergeSort le = [] :=
  List.perm_nil.mp (List.mergeSort_perm [] le)

theorem mergeSort_singleton_eq {α : Type} (a : α) (le : α → α → Bool) :
    [a].mergeSort le = [a] :=
  List.perm_singleton.mp (List.mergeSort_perm [a] le)

/-- Claim C8: `calculate_precision_at_k` returns
`|retrieved[:k] ∩ relevant| / k` (the number of retrieved ids among the
top `k` that lie in the relevant set, divided by `k`), returns 0 when
`k ≤ 0` or `retrieved` is empty, and for `k > 0` its value always lies in
`[0, 1]`. -/
theorem C8_precision_at_k_spec (retrieved : List Int) (relevant : List Int)
    (k : Int) :
    (k ≤ 0 ∨ retrieved = [] → calculate_precision_at_k retrieved relevant k = 0) ∧
    (0 < k →
      calculate_precision_at_k retrieved relevant k =
        (((retrieved.take k.toNat).countP (fun note_id => relevant.elem note_id) : ℚ)) / (k : ℚ) ∧
      0 ≤ calculate_precision_at_k retrieved relevant k ∧
      calculate_precision_at_k retrieved relevant k ≤ 1) := by
  constructor
  · intro h
    simp only [calculate_precision_at_k, if_pos h]
  · intro hk
    have hk0 : ¬ k ≤ 0 := not_le.mpr hk
    by_cases hr : retrieved = []
    · subst hr
      refine ⟨by simp [calculate_precision_at_k], by simp [calculate_precision_at_k], ?_⟩
      simp [calculate_precision_at_k]
    · have hcond : ¬ (k ≤ 0 ∨ retrieved = []) := by
        push_neg
        exact ⟨hk, hr⟩
      have heq : calculate_precision_at_k retrieved relevant k =
          (((retrieved.take k.toNat).countP (fun note_id => relevant.elem note_id) : ℚ)) / (k : ℚ) := by
        simp only [calculate_precision_at_k, if_neg hcond]
      refine ⟨heq, ?_, ?_⟩
      · rw [heq]
        have hkQ : (0 : ℚ) < (k : ℚ) := by exact_mod_cast hk
        positivity
      · rw [heq]
        have hkQ : (0 : ℚ) < (k : ℚ) := by exact_mod_cast hk
        rw [div_le_one hkQ]
        have hc : (retrieved.take k.toNat).countP (fun note_id => relevant.elem note_id) ≤ k.toNat :=
          le_trans (List.countP_le_length _) (List.length_take_le _ _)
        have hcInt : ((retrieved.take k.toNat).countP (fun note_id => relevant.elem note_id) : Int) ≤ k := by
          omega
        exact_mod_cast hcInt

/-- Witness for C8 at concrete inputs. -/
theorem C8_precision_at_k_spec_witness :
    calculate_precision_at_k [] [3] (-1) = 0 ∧
    calculate_precision_at_k [5, 3, 9] [3] 2 =
      ((([5, 3, 9].take (2 : Int).toNat).countP (fun note_id => [3].elem note_id) : ℚ)) / ((2 : Int) : ℚ) ∧
    0 ≤ calculate_precision_at_k [5, 3, 9] [3] 2 ∧
    calculate_precision_at_k [5, 3, 9] [3] 2 ≤ 1 :=
  ⟨(C8_precision_at_k_spec [] [3] (-1)).1 (Or.inr rfl),
   ((C8_precision_at_k_spec [5, 3, 9] [3] 2).2 (by norm_num)).1,
   ((C8_precision_at_k_spec [5, 3, 9] [3] 2).2 (by norm_num)).2.1,
   ((C8_precision_at_k_spec [5, 3, 9] [3] 2).2 (by norm_num)).2.2⟩

/-- Claim C9: `calculate_mrr` is the mean over paired queries of the
reciprocal rank (1/rank of the first retrieved id lying in the relevant
set, 0 if none), it returns 0 when the two input sequences have unequal
lengths, `calculate_mrr [[5,3,9]] [{3}] = 1/2` and
`calculate_mrr [[1,2]] [{9}] = 0`. -/
theorem C9_mrr_spec :
    (∀ (rls : List (List Int)) (rss : List (List Int)),
      (rls.length ≠ rss.length → calculate_mrr rls rss = 0) ∧
      (rls ≠ [] → rls.length = rss.length →
        calculate_mrr rls rss =
          ((rls.zip rss).map (fun p => reciprocalRank p.1 p.2)).sum / (rls.length : ℚ)) ∧
      (∀ (r rel : List Int) (i : Nat),
        firstRelevantIdx r rel = some i → reciprocalRank r rel = 1 / ((i : ℚ) + 1)) ∧
      (∀ (r rel : List Int),
        firstRelevantIdx r rel = none → reciprocalRank r rel = 0)) ∧
    calculate_mrr [[5, 3, 9]] [[3]] = 1 / 2 ∧
    calculate_mrr [[1, 2]] [[9]] = 0 := by
  refine ⟨fun rls rss => ⟨?_, ?_, ?_, ?_⟩, ?_, ?_⟩
  · intro h
    simp only [calculate_mrr, if_pos (Or.inr h)]
  · intro hne hlen
    have hcond : ¬ (rls = [] ∨ rls.length ≠ rss.length) := by
      push_neg
      exact ⟨hne, hlen⟩
    have hzlen : ((rls.zip rss).map (fun p => reciprocalRank p.1 p.2)).length = rls.length := by
      simp [List.length_zip, hlen]
    have hznil : ¬ ((rls.zip rss).map (fun p => reciprocalRank p.1 p.2)) = [] := by
      intro h
      have := congrArg List.length h
      rw [hzlen] at this
      exact hne (List.length_eq_zero.mp this)
    simp only [calculate_mrr, if_neg hcond, if_neg hznil, hzlen]
  · intro r rel i h
    simp [reciprocalRank, h]
  · intro r rel h
    simp [reciprocalRank, h]
  · have h1 : firstRelevantIdx [5, 3, 9] [3] = some 1 := by decide
    simp [calculate_mrr, reciprocalRank, h1]
    norm_num
  · have h2 : firstRelevantIdx [1, 2] [9] = none := by decide
    simp [calculate_mrr, reciprocalRank, h2]

/-- Witness for C9 at concrete inputs. -/
theorem C9_mrr_spec_witness :
    calculate_mrr [[1]] [] = 0 ∧
    calculate_mrr [[5, 3, 9]] [[3]] =
      (([[5, 3, 9]].zip [[3]]).map (fun p => reciprocalRank p.1 p.2)).sum /
        (([[5, 3, 9]] : List (List Int)).length : ℚ) ∧
    reciprocalRank [5, 3, 9] [3] = 1 / ((1 : ℚ) + 1) :=
  ⟨(C9_mrr_spec.1 [[1]] []).1 (by norm_num),
   ((C9_mrr_spec.1 [[5, 3, 9]] [[3]]).2.1 (by norm_num) (by norm_num)),
   (C9_mrr_spec.1 [] []).2.2.1 [5, 3, 9] [3] 1 (by decide)⟩

/-- Claim C2 (code bug): the guard of `evaluate_retrieval` embeds the
Python chained comparison
`len(queries) != len(retrieved_results) != len(ground_truth)`, which only
compares adjacent pairs.  On the concrete input with 1 query but 2
retrieved lists and 2 ground-truth sets the lengths differ
(`len(queries) = 1 ≠ 2 = len(ground_truth)`), yet no exception is raised
and a full `EvaluationResult` is returned. -/
theorem C2_evaluate_retrieval_guard_bug :
    (["q"] : List String).length ≠ ([[1], [2]] : List (List Int)).length ∧
    evaluate_retrieval ["q"] [[1], [2]] [[1], [2]] 5 [] =
      Except.ok ⟨1 / 5, 1, 1, 0, 5, 1⟩ := by
  refine ⟨by norm_num, ?_⟩
  have h1 : firstRelevantIdx [1] [1] = some 0 := by decide
  have h2 : firstRelevantIdx [2] [2] = some 0 := by decide
  simp [evaluate_retrieval, calculate_precision_at_k, calculate_recall_at_k,
    calculate_mrr, reciprocalRank, h1, h2]

/-- Claim C3: under the spec's keyword-fallback scoring, for the query
"ownership model" the note titled "Rust ownership" matches 1 of the 2
distinct query keywords and scores 1/2, the note titled "Go channels"
matches 0 of them and scores 0, so the first scores strictly higher. -/
theorem C3_keyword_fallback_example :
    keywordTokens "ownership model" = ["ownership", "model"] ∧
    keywordMatches ["ownership", "model"] ⟨1, "Rust ownership", "", [], none, 7, 0, 0⟩ = 1 ∧
    keywordMatches ["ownership", "model"] ⟨2, "Go channels", "", [], none, 7, 0, 0⟩ = 0 ∧
    keywordScore "ownership model" ⟨1, "Rust ownership", "", [], none, 7, 0, 0⟩ = 1 / 2 ∧
    keywordScore "ownership model" ⟨2, "Go channels", "", [], none, 7, 0, 0⟩ = 0 ∧
    keywordScore "ownership model" ⟨2, "Go channels", "", [], none, 7, 0, 0⟩ <
      keywordScore "ownership model" ⟨1, "Rust ownership", "", [], none, 7, 0, 0⟩ := by
  have hk : keywordTokens "ownership model" = ["ownership", "model"] := by decide
  have hm1 : keywordMatches ["ownership", "model"]
      ⟨1, "Rust ownership", "", [], none, 7, 0, 0⟩ = 1 := by decide
  have hm2 : keywordMatches ["ownership", "model"]
      ⟨2, "Go channels", "", [], none, 7, 0, 0⟩ = 0 := by decide
  have hs1 : keywordScore "ownership model"
      ⟨1, "Rust ownership", "", [], none, 7, 0, 0⟩ = 1 / 2 := by
    simp only [keywordScore, hk, hm1]
    norm_num
  have hs2 : keywordScore "ownership model"
      ⟨2, "Go channels", "", [], none, 7, 0, 0⟩ = 0 := by
    simp only [keywordScore, hk, hm2]
    norm_num
  refine ⟨hk, hm1, hm2, hs1, hs2, ?_⟩
  rw [hs1, hs2]
  norm_num

/-- Claim C10: when the OpenAI embedding provider is unconfigured, or its
underlying API call fails, `semantic_search` raises `AIServiceError`
("Failed to process search query") and returns no results — there is no
keyword-fallback path. -/
theorem C10_search_fails_hard (api : String → Except String (List ℚ))
    (dist : List ℚ → List ℚ → ℚ) (db : List Note) (query : String)
    (user_id top_k : Nat) (configured : Bool)
    (h : configured = false ∨ ∃ e, api query = Except.error e) :
    semantic_search (openAIEmbedText configured api) dist db query user_id top_k =
      Except.error "Failed to process search query" := by
  rcases h with h | ⟨e, he⟩
  · subst h
    simp [semantic_search, openAIEmbedText]
  · cases hc : configured with
    | false => simp [semantic_search, openAIEmbedText]
    | true => simp [semantic_search, openAIEmbedText, he]

/-- Witness for C10: unconfigured provider at a concrete input. -/
theorem C10_search_fails_hard_witness :
    semantic_search (openAIEmbedText false (fun _ => Except.ok [0]))
      (fun _ _ => 0) [] "q" 7 5 =
      Except.error "Failed to process search query" :=
  C10_search_fails_hard (fun _ => Except.ok [0]) (fun _ _ => 0) [] "q" 7 5 false
    (Or.inl rfl)

/-- Claim C6: when retrieval returns zero results, `ask_vault` returns
the fixed non-empty "no relevant notes" answer with an empty citation
list and makes no generation call. -/
theorem C6_empty_retrieval (p : String → Except String (List ℚ))
    (dist : List ℚ → List ℚ → ℚ) (db : List Note) (configured : Bool)
    (gen : String → Except String String) (query : String)
    (user_id top_k : Nat)
    (h : semantic_search p dist db query user_id top_k = Except.ok []) :
    ask_vault p dist db configured gen query user_id top_k =
      Except.ok
        (⟨"I couldn\x27t find any relevant notes to answer your question.", []⟩, 0) ∧
    ("I couldn\x27t find any relevant notes to answer your question." : String) ≠ "" := by
  constructor
  · simp [ask_vault, h]
  · decide

/-- Witness for C6: an empty vault at a concrete input. -/
theorem C6_empty_retrieval_witness :
    ask_vault (fun _ => Except.ok [0]) (fun _ _ => 0) [] true
      (fun _ => Except.ok "generated") "q" 7 5 =
      Except.ok
        (⟨"I couldn\x27t find any relevant notes to answer your question.", []⟩, 0) ∧
    ("I couldn\x27t find any relevant notes to answer your question." : String) ≠ "" :=
  C6_empty_retrieval (fun _ => Except.ok [0]) (fun _ _ => 0) [] true
    (fun _ => Except.ok "generated") "q" 7 5
    (by simp [semantic_search, sqlSearchNotes, mergeSort_nil_eq])

/-- Claim C7: when retrieval returns a non-empty result list and the
generation backend is unconfigured, `ask_vault` returns the fixed
"AI service is not configured" message together with the real citations
projected from the retrieval results, and makes no generation call. -/
theorem C7_unconfigured_returns_citations (p : String → Except String (List ℚ))
    (dist : List ℚ → List ℚ → ℚ) (db : List Note)
    (gen : String → Except String String) (query : String)
    (user_id top_k : Nat) (res : List SearchRow)
    (h : semantic_search p dist db query user_id top_k = Except.ok res)
    (hne : res ≠ []) :
    ask_vault p dist db false gen query user_id top_k =
      Except.ok
        (⟨"AI service is not configured. Please set OPENAI_API_KEY.", buildCitations res⟩, 0) ∧
    (buildCitations res).length = res.length := by
  constructor
  · simp [ask_vault, h, hne]
  · simp [buildCitations]

/-- Witness for C7: a one-note vault with the generation backend
unconfigured but a working (test-double) embedding provider. -/
theorem C7_unconfigured_returns_citations_witness :
    ask_vault (fun _ => Except.ok [0]) (fun _ _ => 1)
      [⟨1, "A", "a", [], some [0], 7, 0, 0⟩] false
      (fun _ => Except.ok "generated") "q" 7 5 =
      Except.ok
        (⟨"AI service is not configured. Please set OPENAI_API_KEY.",
          buildCitations [⟨1, "A", "a", [], 0, "a"⟩]⟩, 0) ∧
    (buildCitations [⟨1, "A", "a", [], (0 : ℚ), "a"⟩]).length =
      ([⟨1, "A", "a", [], (0 : ℚ), "a"⟩] : List SearchRow).length :=
  C7_unconfigured_returns_citations (fun _ => Except.ok [0]) (fun _ _ => 1)
    [⟨1, "A", "a", [], some [0], 7, 0, 0⟩] (fun _ => Except.ok "generated")
    "q" 7 5 [⟨1, "A", "a", [], 0, "a"⟩]
    (by
      have he : mkExcerpt "a" = "a" := by decide
      simp [semantic_search, sqlSearchNotes, mergeSort_singleton_eq, searchRow, he])
    (by simp)

/-- Any note reaching the result set of the SQL query satisfies the WHERE
clause: it comes from the table, belongs to the requesting user, and has
a non-null embedding. -/
theorem mem_sqlSearchNotes {dist : List ℚ → List ℚ → ℚ} {db : List Note}
    {qe : List ℚ} {uid k : Nat} {n : Note}
    (h : n ∈ sqlSearchNotes dist db qe uid k) :
    n ∈ db ∧ n.user_id = uid ∧ n.embedding.isSome := by
  unfold sqlSearchNotes at h
  have h1 := List.take_subset _ _ h
  have h2 := (List.mergeSort_perm _ (vectorDistLe dist qe)).mem_iff.mp h1
  rw [List.mem_filter] at h2
  obtain ⟨hdb, hpred⟩ := h2
  rw [Bool.and_eq_true, beq_iff_eq] at hpred
  exact ⟨hdb, hpred.1, hpred.2⟩

/-- Claim C1 (counterexample): the similarity is not clamped.  With a raw
distance of 2 (a nominal cosine distance of opposite vectors) the
returned similarity is −1, outside [0, 1]. -/
theorem C1_counterexample :
    semantic_search (fun _ => Except.ok [(-1 : ℚ)]) (fun _ _ => (2 : ℚ))
      [⟨1, "Rust", "Own", [], some [1], 7, 0, 0⟩] "q" 7 5 =
      Except.ok [⟨1, "Rust", "Own", [], -1, "Own"⟩] ∧
    ¬ (0 ≤ (-1 : ℚ) ∧ (-1 : ℚ) ≤ 1) := by
  constructor
  · have he : mkExcerpt "Own" = "Own" := by decide
    simp [semantic_search, sqlSearchNotes, mergeSort_singleton_eq, searchRow, he]
    norm_num
  · norm_num

/-- Claim C1 (amended): every similarity returned by vector-mode search
equals `1 − distance` with no clamping, where `distance` is the raw
distance of the note's stored embedding to the query embedding; whenever
every raw distance lies in the cosine-distance range [0, 2], every
returned similarity lies in [−1, 1]. -/
theorem C1_similarity_unclamped (p : String → Except String (List ℚ))
    (dist : List ℚ → List ℚ → ℚ) (db : List Note) (query : String)
    (qe : List ℚ) (user_id top_k : Nat) (res : List SearchRow)
    (hp : p query = Except.ok qe)
    (h : semantic_search p dist db query user_id top_k = Except.ok res) :
    (∀ r ∈ res, ∃ n, n ∈ db ∧ n.user_id = user_id ∧
      r.similarity = 1 - dist (n.embedding.getD []) qe) ∧
    ((∀ a b, 0 ≤ dist a b ∧ dist a b ≤ 2) →
      ∀ r ∈ res, -1 ≤ r.similarity ∧ r.similarity ≤ 1) := by
  have hres : res = (sqlSearchNotes dist db qe user_id top_k).map (searchRow dist qe) := by
    unfold semantic_search at h
    rw [hp] at h
    simpa using h.symm
  subst hres
  constructor
  · intro r hr
    obtain ⟨n, hn, hrn⟩ := List.mem_map.mp hr
    obtain ⟨hdb, huid, _⟩ := mem_sqlSearchNotes hn
    exact ⟨n, hdb, huid, by rw [← hrn]; rfl⟩
  · intro hd r hr
    obtain ⟨n, hn, hrn⟩ := List.mem_map.mp hr
    have h1 := (hd (n.embedding.getD []) qe).1
    have h2 := (hd (n.embedding.getD []) qe).2
    have hsim : r.similarity = 1 - dist (n.embedding.getD []) qe := by
      rw [← hrn]
      rfl
    rw [hsim]
    constructor <;> linarith

/-- Witness for C1 (amended) at a concrete one-note vault with raw
distance 1. -/
theorem C1_similarity_unclamped_witness :
    -1 ≤ (⟨1, "A", "a", [], (0 : ℚ), "a"⟩ : SearchRow).similarity ∧
    (⟨1, "A", "a", [], (0 : ℚ), "a"⟩ : SearchRow).similarity ≤ 1 :=
  (C1_similarity_unclamped (fun _ => Except.ok [0]) (fun _ _ => 1)
    [⟨1, "A", "a", [], some [0], 7, 0, 0⟩] "q" [0] 7 5
    [⟨1, "A", "a", [], 0, "a"⟩] rfl
    (by
      have he : mkExcerpt "a" = "a" := by decide
      simp [semantic_search, sqlSearchNotes, mergeSort_singleton_eq, searchRow, he])).2
    (fun a b => by norm_num) _ (by simp)

/-- Claim C4: every result of `semantic_search` for owner `user_id` comes
from a note of that owner with a non-null embedding, and the results are
unchanged under any modification of other users' notes (no cross-user
leakage or influence). -/
theorem C4_owner_isolation (p : String → Except String (List ℚ))
    (dist : List ℚ → List ℚ → ℚ) (db : List Note) (query : String)
    (user_id top_k : Nat) (res : List SearchRow)
    (h : semantic_search p dist db query user_id top_k = Except.ok res) :
    (∀ r ∈ res, ∃ n, n ∈ db ∧ n.user_id = user_id ∧ n.embedding.isSome ∧
      r.note_id = n.id ∧ r.title = n.title ∧ r.content = n.content) ∧
    (∀ db2 : List Note,
      db.filter (fun n => n.user_id == user_id) =
        db2.filter (fun n => n.user_id == user_id) →
      semantic_search p dist db2 query user_id top_k = Except.ok res) := by
  cases hp : p query with
  | error e =>
      unfold semantic_search at h
      rw [hp] at h
      exact absurd h (by simp)
  | ok qe =>
      have hres : res = (sqlSearchNotes dist db qe user_id top_k).map (searchRow dist qe) := by
        unfold semantic_search at h
        rw [hp] at h
        simpa using h.symm
      constructor
      · intro r hr
        rw [hres] at hr
        obtain ⟨n, hn, hrn⟩ := List.mem_map.mp hr
        obtain ⟨hdb, huid, hemb⟩ := mem_sqlSearchNotes hn
        exact ⟨n, hdb, huid, hemb, by rw [← hrn]; rfl, by rw [← hrn]; rfl, by rw [← hrn]; rfl⟩
      · intro db2 hdb2
        have e1 : ∀ (l : List Note),
            l.filter (fun n => n.user_id == user_id && n.embedding.isSome) =
            (l.filter (fun n => n.user_id == user_id)).filter
              (fun n => n.embedding.isSome) := by
          intro l
          rw [List.filter_filter]
          exact List.filter_congr (fun a _ => Bool.and_comm _ _)
        have key : db.filter (fun n => n.user_id == user_id && n.embedding.isSome) =
            db2.filter (fun n => n.user_id == user_id && n.embedding.isSome) := by
          rw [e1, e1, hdb2]
        unfold semantic_search sqlSearchNotes
        rw [hp, ← key]
        rw [hres]
        rfl

/-- Witness for C4: adding another user's note to the vault leaves the
results unchanged. -/
theorem C4_owner_isolation_witness :
    semantic_search (fun _ => Except.ok [0]) (fun _ _ => 1)
      [⟨1, "A", "a", [], some [0], 7, 0, 0⟩, ⟨2, "X", "x", [], some [9], 8, 0, 0⟩]
      "q" 7 5 =
      Except.ok [⟨1, "A", "a", [], 0, "a"⟩] :=
  (C4_owner_isolation (fun _ => Except.ok [0]) (fun _ _ => 1)
    [⟨1, "A", "a", [], some [0], 7, 0, 0⟩] "q" 7 5
    [⟨1, "A", "a", [], 0, "a"⟩]
    (by
      have he : mkExcerpt "a" = "a" := by decide
      simp [semantic_search, sqlSearchNotes, mergeSort_singleton_eq, searchRow, he])).2
    [⟨1, "A", "a", [], some [0], 7, 0, 0⟩, ⟨2, "X", "x", [], some [9], 8, 0, 0⟩]
    (by simp)

theorem intercalate_go_eq (s : String) (l : List String) :
    ∀ acc : String, String.intercalate.go acc s l = acc ++ sepTail s l := by
  induction l with
  | nil =>
      intro acc
      simp [String.intercalate.go, sepTail]
  | cons b bs ih =>
      intro acc
      simp only [String.intercalate.go, sepTail, ih (acc ++ s ++ b)]
      simp [String.append_assoc]

theorem intercalate_cons_sepTail (s b : String) (bs : List String) :
    String.intercalate s (b :: bs) = b ++ sepTail s bs := by
  simp only [String.intercalate]
  exact intercalate_go_eq s bs b

theorem contextBlocks_length (i : Nat) (rs : List SearchRow) :
    (contextBlocks i rs).length = rs.length := by
  induction rs generalizing i with
  | nil => rfl
  | cons r rest ih => simp [contextBlocks, ih]

theorem contextBlocks_get? (rs : List SearchRow) :
    ∀ (i j : Nat), ∀ h : j < rs.length,
      (contextBlocks i rs).get? j =
        some ("[" ++ toString (i + j) ++ "] " ++ (rs.get ⟨j, h⟩).title ++ "\n" ++
          (rs.get ⟨j, h⟩).content ++ "\n") := by
  induction rs with
  | nil =>
      intro i j h
      exact absurd h (by simp)
  | cons r rest ih =>
      intro i j h
      cases j with
      | zero => simp [contextBlocks]
      | succ j =>
          have hj : j < rest.length := Nat.lt_of_succ_lt_succ (by simpa using h)
          have hrec := ih (i + 1) j hj
          have harith : i + 1 + j = i + (j + 1) := by omega
          simp only [contextBlocks, List.get?, hrec, harith, List.get]

theorem containsInOrder_cons (s pre m post : String) (ms : List String)
    (hs : s = pre ++ m ++ post) (h : ContainsInOrder post ms) :
    ContainsInOrder s (m :: ms) :=
  ⟨pre, post, hs, h⟩

theorem range_map_marker (i n : Nat) :
    (List.range (n + 1)).map (fun j => "[" ++ toString (i + j) ++ "]") =
      ("[" ++ toString i ++ "]") ::
        (List.range n).map (fun j => "[" ++ toString (i + 1 + j) ++ "]") := by
  rw [List.range_succ_eq_map]
  simp only [List.map_cons, List.map_map]
  congr 1
  refine List.map_congr_left (fun a _ => ?_)
  simp only [Function.comp_apply, Nat.succ_eq_add_one]
  have h : i + (a + 1) = i + 1 + a := by omega
  rw [h]

theorem bracket_space_split : ("] " : String) = "]" ++ " " := by decide

theorem bracket_space_append (s : String) : ("] " : String) ++ s = "]" ++ (" " ++ s) := by
  rw [← String.append_assoc, ← bracket_space_split]

theorem containsInOrder_sepTail (rs : List SearchRow) :
    ∀ (i : Nat) (pre0 : String),
      ContainsInOrder (pre0 ++ sepTail "\n" (contextBlocks i rs))
        ((List.range rs.length).map (fun j => "[" ++ toString (i + j) ++ "]")) := by
  induction rs with
  | nil =>
      intro i pre0
      simp [contextBlocks, ContainsInOrder]
  | cons r rest ih =>
      intro i pre0
      rw [List.length_cons, range_map_marker]
      refine containsInOrder_cons _ (pre0 ++ "\n") _
        (" " ++ r.title ++ "\n" ++ r.content ++ "\n" ++
          sepTail "\n" (contextBlocks (i + 1) rest)) _ ?_ ?_
      · simp only [contextBlocks, sepTail]
        simp [String.append_assoc, bracket_space_append]
      · exact ih (i + 1) (" " ++ r.title ++ "\n" ++ r.content ++ "\n")

theorem containsInOrder_context (rs : List SearchRow) :
    ContainsInOrder (assembleContext rs)
      ((List.range rs.length).map (fun j => "[" ++ toString (1 + j) ++ "]")) := by
  cases rs with
  | nil => simp [assembleContext, contextBlocks, ContainsInOrder, String.intercalate]
  | cons r rest =>
      rw [List.length_cons, range_map_marker]
      refine containsInOrder_cons _ "" _
        (" " ++ r.title ++ "\n" ++ r.content ++ "\n" ++
          sepTail "\n" (contextBlocks (1 + 1) rest)) _ ?_ ?_
      · simp only [assembleContext, contextBlocks]
        rw [intercalate_cons_sepTail]
        simp [String.append_assoc, bracket_space_append]
      · exact containsInOrder_sepTail rest (1 + 1)
          (" " ++ r.title ++ "\n" ++ r.content ++ "\n")

/-- Claim C5 (counterexample): the context built by `ask_vault` is the
blocks joined with `"\n"`, which inserts an extra newline between
consecutive blocks; it is therefore not the plain concatenation of the
blocks `"[i] {title}\n{content}\n"` once there are at least two
results. -/
theorem C5_counterexample :
    assembleContext [⟨1, "A", "a", [], 1, "a"⟩, ⟨2, "B", "b", [], 0, "b"⟩] =
      "[1] A\na\n\n[2] B\nb\n" ∧
    String.join (contextBlocks 1
      [⟨1, "A", "a", [], 1, "a"⟩, ⟨2, "B", "b", [], 0, "b"⟩]) =
      "[1] A\na\n[2] B\nb\n" ∧
    ("[1] A\na\n\n[2] B\nb\n" : String) ≠ "[1] A\na\n[2] B\nb\n" :=
  ⟨by decide, by decide, by decide⟩

/-- Claim C5 (amended): for a ranked result list of length n, the context
assembled by `ask_vault` is the rank-ordered blocks
`"[i] {title}\n{content}\n"` (i the 1-based rank) joined with the
separator `"\n"` — plain concatenation with one extra newline between
consecutive blocks; it contains the markers `[1]`..`[n]` in order; the
citation list has length n and citation i is the strict projection
(note_id, title, excerpt, similarity) of result i; and `ask_vault`
returns exactly these citations alongside the generated answer. -/
theorem C5_context_citation_alignment (results : List SearchRow) :
    assembleContext results = String.intercalate "\n" (contextBlocks 1 results) ∧
    (contextBlocks 1 results).length = results.length ∧
    (∀ j : Nat, ∀ h : j < results.length,
      (contextBlocks 1 results).get? j =
        some ("[" ++ toString (1 + j) ++ "] " ++ (results.get ⟨j, h⟩).title ++ "\n" ++
          (results.get ⟨j, h⟩).content ++ "\n")) ∧
    ContainsInOrder (assembleContext results)
      ((List.range results.length).map (fun j => "[" ++ toString (1 + j) ++ "]")) ∧
    (buildCitations results).length = results.length ∧
    (∀ j : Nat, ∀ h : j < results.length,
      (buildCitations results).get? j =
        some ⟨(results.get ⟨j, h⟩).note_id, (results.get ⟨j, h⟩).title,
          (results.get ⟨j, h⟩).excerpt, (results.get ⟨j, h⟩).similarity⟩) ∧
    (∀ (p : String → Except String (List ℚ)) (dist : List ℚ → List ℚ → ℚ)
      (db : List Note) (gen : String → Except String String)
      (query : String) (user_id top_k : Nat) (ans : String),
      semantic_search p dist db query user_id top_k = Except.ok results →
      results ≠ [] →
      gen (ragPrompt (assembleContext results) query) = Except.ok ans →
      ask_vault p dist db true gen query user_id top_k =
        Except.ok (⟨ans, buildCitations results⟩, 1)) := by
  refine ⟨rfl, contextBlocks_length 1 results, contextBlocks_get? results 1,
    containsInOrder_context results, by simp [buildCitations], ?_, ?_⟩
  · intro j h
    simp only [buildCitations, List.get?_map, List.get?_eq_get h, Option.map_some']
  · intro p dist db gen query user_id top_k ans hs hne hgen
    simp [ask_vault, hs, hne, hgen]

/-- Witness for C5 (amended): the block of rank 1 on a concrete
two-result list, and the full pipeline on a concrete one-note vault. -/
theorem C5_context_citation_alignment_witness :
    (contextBlocks 1
        [⟨1, "A", "a", [], (1 : ℚ), "a"⟩, ⟨2, "B", "b", [], (0 : ℚ), "b"⟩]).get? 0 =
      some ("[" ++ toString (1 + 0) ++ "] " ++
        (([⟨1, "A", "a", [], (1 : ℚ), "a"⟩, ⟨2, "B", "b", [], (0 : ℚ), "b"⟩] :
          List SearchRow).get ⟨0, by norm_num⟩).title ++ "\n" ++
        (([⟨1, "A", "a", [], (1 : ℚ), "a"⟩, ⟨2, "B", "b", [], (0 : ℚ), "b"⟩] :
          List SearchRow).get ⟨0, by norm_num⟩).content ++ "\n") ∧
    ask_vault (fun _ => Except.ok [0]) (fun _ _ => 1)
      [⟨1, "A", "a", [], some [0], 7, 0, 0⟩] true
      (fun _ => Except.ok "generated") "q" 7 5 =
      Except.ok (⟨"generated", buildCitations [⟨1, "A", "a", [], 0, "a"⟩]⟩, 1) :=
  ⟨(C5_context_citation_alignment
      [⟨1, "A", "a", [], (1 : ℚ), "a"⟩, ⟨2, "B", "b", [], (0 : ℚ), "b"⟩]).2.2.1 0
      (by norm_num),
   (C5_context_citation_alignment [⟨1, "A", "a", [], 0, "a"⟩]).2.2.2.2.2.2
     (fun _ => Except.ok [0]) (fun _ _ => 1)
     [⟨1, "A", "a", [], some [0], 7, 0, 0⟩]
     (fun _ => Except.ok "generated") "q" 7 5 "generated"
     (by
       have he : mkExcerpt "a" = "a" := by decide
       simp [semantic_search, sqlSearchNotes, mergeSort_singleton_eq, searchRow, he])
     (by simp)
     rfl⟩

end Vault
